import Mathlib

/-!
# A verification model of the MoneyWell reconciliation engine (mw_analyze.py)

This file gives a shallow embedding of the reconciliation engine of
`mw_analyze.py`: the in-memory ledger model (`Account`, `Bucket`,
`Transaction`, `MoneyFlow`, `DateRange`, `BasicInfo`), the query utilities,
the balance engine and the consistency checks, together with theorems
settling the specification's claims about them.

Modelling conventions:

* Dates: Python `datetime.date` values form a bounded total order, and the
  source uses `datetime.date.min` / `datetime.date.max` as extreme query
  bounds; a day is added with `timedelta(days=1)`.  Dates of stored records
  are modelled as `Nat` (day numbers; `+ 1` is the next day, `0` plays the
  role of `date.min`).  A query-date parameter whose Python default is
  `datetime.date.max` (or `None`, where that is equivalent to "no upper
  bound") is modelled as `Option Nat`, `none` standing for `date.max`;
  the comparison `d <= date.max` is always true, and a finite `DateRange`
  never contains `date.max`.

* Amounts: monetary amounts are modelled as exact rationals `ℚ`.  Python 2's
  `round(x, 2)` (round half away from zero to 2 decimal places) is the
  function `round2` below.

* Python truthiness: an optional integer key field (`bucket`,
  `transfer_sibling`, `split_parent`) used in a boolean context is truthy
  exactly when it is present and non-zero (`otruthy`); the source also uses
  `is None` / `!= None` tests in some filters, which are modelled by
  `Option.isNone` / `Option.isSome`.

* Dictionaries keyed by record key are modelled as lists of records (or of
  key/value pairs) with lookup by `List.find?`; set union of account-key
  sets is modelled by `(· ++ ·).dedup`.  Sums of rationals do not depend on
  iteration order.
-/

/-- Python 2 `round` to the nearest integer, halves away from zero. -/
def pyRound (x : ℚ) : ℤ :=
  if 0 ≤ x then ⌊x + 1/2⌋ else -⌊-x + 1/2⌋

/-- Python 2 `round(x, 2)`: round to 2 decimal places, halves away from zero. -/
def round2 (x : ℚ) : ℚ :=
  (pyRound (x * 100) : ℚ) / 100

/-- An amount is cent-valued when it is an integer number of hundredths. -/
def isCent (q : ℚ) : Prop := (q * 100).den = 1

instance (q : ℚ) : Decidable (isCent q) := by unfold isCent; infer_instance

/-! ## Ledger entities (classes `Account`, `Bucket`, `Transaction`,
`MoneyFlow`, `DateRange` of the source) -/

/-- An account: key, display name, static "included in cash flow" flag. -/
structure Account where
  key : Nat
  name : String
  bucketed : Bool
deriving DecidableEq

/-- A bucket: key, display name, hidden flag. -/
structure Bucket where
  key : Nat
  name : String
  hidden : Bool
deriving DecidableEq

/-- A transaction on an account; optional fields mirror nullable columns. -/
structure Transaction where
  key : Nat
  date : Nat
  account : Nat
  is_bucket_optional : Bool
  bucket : Option Nat
  transfer_sibling : Option Nat
  split_parent : Option Nat
  payee : String
  memo : String
  amount : ℚ
deriving DecidableEq

/-- One leg of a bucket-to-bucket money flow. -/
structure MoneyFlow where
  key : Nat
  date : Nat
  bucket : Nat
  transfer_sibling : Nat
  memo : String
  amount : ℚ
deriving DecidableEq

/-- A closed date range with inclusive membership test. -/
structure DateRange where
  datestart : Nat
  dateend : Nat
deriving DecidableEq

/-- `DateRange.includes_date` of the source: both bounds inclusive. -/
def DateRange.includes_date (r : DateRange) (date : Nat) : Bool :=
  r.datestart ≤ date && date ≤ r.dateend

/-- Python truthiness of an optional integer key: present and non-zero. -/
def otruthy (o : Option Nat) : Bool :=
  match o with
  | none => false
  | some k => k != 0

/-- `d <= q` where `q : Option Nat` models a query date, `none` being
`datetime.date.max` (no finite date exceeds it). -/
def dleq (d : Nat) (q : Option Nat) : Bool :=
  match q with
  | none => true
  | some e => d ≤ e

/-! ## Query utilities (module-level filter/sum helpers of the source) -/

/-- `proper_txns`: drop split children (`split_parent is None` test). -/
def proper_txns (txns : List Transaction) : List Transaction :=
  txns.filter fun txn => txn.split_parent.isNone

/-- `txns_in_account`: transactions owned by the given account. -/
def txns_in_account (txns : List Transaction) (account : Nat) : List Transaction :=
  txns.filter fun txn => txn.account == account

/-- `txns_in_bucket`: transactions assigned to the given bucket
(Python `txn.bucket == bucket` with an integer `bucket`, so a `None`
bucket never matches). -/
def txns_in_bucket (txns : List Transaction) (bucket : Nat) : List Transaction :=
  txns.filter fun txn => txn.bucket == some bucket

/-- `txns_between_dates`: both bounds inclusive; the upper bound may be
`datetime.date.max` (`none`). -/
def txns_between_dates (txns : List Transaction) (datestart : Nat)
    (dateend : Option Nat) : List Transaction :=
  txns.filter fun txn => datestart ≤ txn.date && dleq txn.date dateend

/-- `txns_at_or_before_date`: a range from `date.min` to the bound. -/
def txns_at_or_before_date (txns : List Transaction) (date : Nat) : List Transaction :=
  txns_between_dates txns 0 (some date)

/-- `txn_amount_sum`: sum of amounts, rounded to cents after summation. -/
def txn_amount_sum (txns : List Transaction) : ℚ :=
  round2 (txns.map (fun txn => txn.amount)).sum

/-- `flows_in_bucket`: money flows affecting the given bucket. -/
def flows_in_bucket (flows : List MoneyFlow) (bucket : Nat) : List MoneyFlow :=
  flows.filter fun flow => flow.bucket == bucket

/-- `flows_between_dates`: both bounds inclusive, upper bound possibly
`date.max`. -/
def flows_between_dates (flows : List MoneyFlow) (datestart : Nat)
    (dateend : Option Nat) : List MoneyFlow :=
  flows.filter fun flow => datestart ≤ flow.date && dleq flow.date dateend

/-- `flow_amount_sum`: sum of flow amounts, rounded to cents. -/
def flow_amount_sum (flows : List MoneyFlow) : ℚ :=
  round2 (flows.map (fun flow => flow.amount)).sum

/-- Sort a list of transactions by date (`txns.sort(key = Transaction.get_date)`;
`List.mergeSort` is stable, like Python's sort). -/
def sortByDate (txns : List Transaction) : List Transaction :=
  txns.mergeSort fun s t => s.date ≤ t.date

/-! ## `BasicInfo`: the loaded snapshot and derived classification data -/

/-- The data file snapshot handed to the reconciliation engine
(class `BasicInfo` of the source).  Dictionaries keyed by record key are
lists; `semiBucketedAccounts` is the `semi_bucketed_accounts` dictionary
built by `add_account_bucketed_daterange` before checks run. -/
structure BasicInfo where
  accounts : List Account
  buckets : List Bucket
  cashFlowStart : Nat
  startingBucketBalances : List (Nat × ℚ)
  transactions : List Transaction
  moneyFlows : List MoneyFlow
  semiBucketedAccounts : List (Nat × List DateRange)
deriving DecidableEq

namespace BasicInfo

/-- Dictionary lookup `self.transactions[k]` / `k in self.transactions`
(transactions are stored keyed by their own `key`). -/
def findTxn (info : BasicInfo) (k : Nat) : Option Transaction :=
  info.transactions.find? fun txn => txn.key == k

/-- Dictionary lookup `self.accounts[a]`. -/
def findAccount (info : BasicInfo) (a : Nat) : Option Account :=
  info.accounts.find? fun acct => acct.key == a

/-- Lookup `self.semi_bucketed_accounts[a]` / membership test. -/
def semiLookup (info : BasicInfo) (a : Nat) : Option (List DateRange) :=
  (info.semiBucketedAccounts.find? fun p => p.1 == a).map fun p => p.2

/-- The keys named as `split_parent` by some transaction, with Python
truthiness (`if txn.split_parent`), before set deduplication. -/
def splitKeysRaw (info : BasicInfo) : List Nat :=
  (info.transactions.filter fun txn => otruthy txn.split_parent).map
    fun txn => txn.split_parent.getD 0

/-- `self.splits`: the set of split-parent keys (iterated as a
deduplicated list). -/
def splitKeys (info : BasicInfo) : List Nat :=
  (splitKeysRaw info).dedup

/-- `is_txn_split` on a transaction key: membership in `self.splits`. -/
def is_txn_split (info : BasicInfo) (k : Nat) : Bool :=
  (splitKeysRaw info).contains k

/-- `is_account_bucketed(account, date)`: a semi-bucketed entry overrides
the static flag; otherwise the static flag of `self.accounts[account]`.
The query date `none` models `datetime.date.max`, which lies beyond every
(finite) override range. -/
def is_account_bucketed (info : BasicInfo) (account : Nat) (date : Option Nat) : Bool :=
  match semiLookup info account with
  | some ranges =>
      match date with
      | some d => ranges.any fun r => r.includes_date d
      | none => false
  | none => ((info.findAccount account).map fun acct => acct.bucketed).getD false

/-- `permanently_bucketed_accounts`: statically bucketed, no override. -/
def permanently_bucketed_accounts (info : BasicInfo) : List Nat :=
  (info.accounts.filter fun acct =>
    acct.bucketed && (semiLookup info acct.key).isNone).map fun acct => acct.key

/-- `permanently_unbucketed_accounts`: statically unbucketed, no override. -/
def permanently_unbucketed_accounts (info : BasicInfo) : List Nat :=
  (info.accounts.filter fun acct =>
    !acct.bucketed && (semiLookup info acct.key).isNone).map fun acct => acct.key

/-- `sometimes_bucketed_accounts`: keys of the override dictionary. -/
def sometimes_bucketed_accounts (info : BasicInfo) : List Nat :=
  info.semiBucketedAccounts.map fun p => p.1

/-- `bucketed_accounts(date)`: accounts bucketed on the given date. -/
def bucketed_accounts (info : BasicInfo) (date : Option Nat) : List Nat :=
  (info.accounts.filter fun acct =>
    info.is_account_bucketed acct.key date).map fun acct => acct.key

/-- `set(permanently_bucketed) | set(sometimes_bucketed)`: the accounts a
bucketed-side check walks (the two parts are disjoint; `dedup` models the
set union). -/
def bucketed_at_some_point (info : BasicInfo) : List Nat :=
  (permanently_bucketed_accounts info ++ sometimes_bucketed_accounts info).dedup

/-- `set(permanently_unbucketed) | set(sometimes_bucketed)` for the
unbucketed-side checks. -/
def unbucketed_at_some_point (info : BasicInfo) : List Nat :=
  (permanently_unbucketed_accounts info ++ sometimes_bucketed_accounts info).dedup

/-! ### Balance engine -/

/-- `account_balance(account, date = None)`: sum of proper transactions of
the account, up to `date` when one is given.  (Passing `datetime.date.max`
and passing `None` filter identically, so both are modelled by `none`.) -/
def account_balance (info : BasicInfo) (account : Nat) (date : Option Nat) : ℚ :=
  let txns := txns_in_account (proper_txns info.transactions) account
  let txns :=
    match date with
    | none => txns
    | some d => txns_at_or_before_date txns d
  txn_amount_sum txns

/-- `total_account_balance(accounts, date = date.max)`. -/
def total_account_balance (info : BasicInfo) (accounts : List Nat)
    (date : Option Nat) : ℚ :=
  round2 (accounts.map fun account => info.account_balance account date).sum

/-- `total_bucketed_account_balance(date = date.max)`. -/
def total_bucketed_account_balance (info : BasicInfo) (date : Option Nat) : ℚ :=
  info.total_account_balance (info.bucketed_accounts date) date

/-- The starting-balance lookup at the head of `bucket_balance`
(`0` when the bucket is absent from the mapping). -/
def starting_balance (info : BasicInfo) (bucket : Nat) : ℚ :=
  ((info.startingBucketBalances.find? fun p => p.1 == bucket).map fun p => p.2).getD 0

/-- `bucket_balance(bucket, date = date.max)`: starting balance plus the
bucket's transactions and money flows dated from the day after the cash
flow start through `date`. -/
def bucket_balance (info : BasicInfo) (bucket : Nat) (date : Option Nat) : ℚ :=
  let starting := info.starting_balance bucket
  let txn_balance :=
    txn_amount_sum
      (txns_between_dates (txns_in_bucket info.transactions bucket)
        (info.cashFlowStart + 1) date)
  let flow_balance :=
    flow_amount_sum
      (flows_between_dates (flows_in_bucket info.moneyFlows bucket)
        (info.cashFlowStart + 1) date)
  round2 (starting + txn_balance + flow_balance)

/-- `total_bucket_balance(date = date.max)`: over every bucket key. -/
def total_bucket_balance (info : BasicInfo) (date : Option Nat) : ℚ :=
  round2 ((info.buckets.map fun bucket => info.bucket_balance bucket.key date)).sum

end BasicInfo

/-! ### Reconciliation checks.  Each check prints a report and returns an
error value; the printed offender lists are modelled by the matching
`..._report` functions (the spec's "side channel"). -/

namespace BasicInfo

/-- `check_cash_flow_start(accounts_to_include = None)`: signed error
`account_balance_total - bucket_balance_total` at the cash flow start
date; `none` defaults the account set to the accounts bucketed on that
date. -/
def check_cash_flow_start (info : BasicInfo)
    (accounts_to_include : Option (List Nat)) : ℚ :=
  let accs :=
    match accounts_to_include with
    | none => info.bucketed_accounts (some info.cashFlowStart)
    | some l => l
  let bucket_balance_total := round2 (info.startingBucketBalances.map fun p => p.2).sum
  let account_balance_total :=
    round2 (accs.map fun account =>
      info.account_balance account (some info.cashFlowStart)).sum
  account_balance_total - bucket_balance_total

/-- `check_bucket_balances(date = date.max)`: returns `True`/`False`
according to whether the bucketed-account total equals the bucket total. -/
def check_bucket_balances (info : BasicInfo) (date : Option Nat) : Bool :=
  info.total_bucketed_account_balance date == info.total_bucket_balance date

/-- `is_txn_xfer_sibling_bucketed`: `False` when the transaction is not a
transfer or its sibling key is missing from the transaction dictionary;
otherwise whether the sibling's account is bucketed on the transaction's
date. -/
def is_txn_xfer_sibling_bucketed (info : BasicInfo) (txn : Transaction) : Bool :=
  match txn.transfer_sibling with
  | none => false
  | some k =>
      match info.findTxn k with
      | none => false
      | some sibling => info.is_account_bucketed sibling.account (some txn.date)

/-- `get_xfer_sibling`: the transfer sibling, or `None` when the sibling
key does not resolve. -/
def get_xfer_sibling (info : BasicInfo) (txn : Transaction) : Option Transaction :=
  match txn.transfer_sibling with
  | none => none
  | some k => info.findTxn k

/-- The per-account offender list of
`check_for_unbucketed_txns_in_bucketed_accounts`: transactions of the
account after the cash flow start (restricted to bucketed dates for
semi-bucketed accounts), that are not split parents, not transfers, have
no bucket and a non-zero amount, sorted by date. -/
def unbucketed_candidate_txns (info : BasicInfo) (account : Nat) : List Transaction :=
  let txns := txns_in_account info.transactions account
  let txns := txns_between_dates txns (info.cashFlowStart + 1) none
  let txns :=
    if (info.sometimes_bucketed_accounts).contains account then
      txns.filter fun txn => info.is_account_bucketed account (some txn.date)
    else txns
  let txns := txns.filter fun txn => !(info.is_txn_split txn.key)
  let txns := txns.filter fun txn => !(otruthy txn.transfer_sibling)
  let txns := txns.filter fun txn => txn.bucket == none
  let txns := txns.filter fun txn => decide (txn.amount ≠ 0)
  sortByDate txns

/-- `check_for_unbucketed_txns_in_bucketed_accounts`: the error sum
(each non-empty per-account list contributes its rounded amount sum). -/
def check_for_unbucketed_txns_in_bucketed_accounts (info : BasicInfo) : ℚ :=
  ((info.bucketed_at_some_point).map fun account =>
    let txns := info.unbucketed_candidate_txns account
    if txns.isEmpty then 0 else txn_amount_sum txns).sum

/-- The printed per-account offender lists of
`check_for_unbucketed_txns_in_bucketed_accounts`. -/
def check_for_unbucketed_txns_report (info : BasicInfo) :
    List (Nat × List Transaction) :=
  (info.bucketed_at_some_point).filterMap fun account =>
    let txns := info.unbucketed_candidate_txns account
    if txns.isEmpty then none else some (account, txns)

/-- The per-account offender list of
`check_for_bucketed_txns_in_unbucketed_accounts` (note the `!= None`
bucket test of the source, as opposed to bucket truthiness). -/
def bucketed_candidate_txns (info : BasicInfo) (account : Nat) : List Transaction :=
  let txns := txns_in_account info.transactions account
  let txns := txns_between_dates txns (info.cashFlowStart + 1) none
  let txns :=
    if (info.sometimes_bucketed_accounts).contains account then
      txns.filter fun txn => !(info.is_account_bucketed account (some txn.date))
    else txns
  let txns := txns.filter fun txn => !(info.is_txn_split txn.key)
  let txns := txns.filter fun txn => !(otruthy txn.transfer_sibling)
  let txns := txns.filter fun txn => txn.bucket.isSome
  let txns := txns.filter fun txn => decide (txn.amount ≠ 0)
  sortByDate txns

/-- `check_for_bucketed_txns_in_unbucketed_accounts`: negated error sum. -/
def check_for_bucketed_txns_in_unbucketed_accounts (info : BasicInfo) : ℚ :=
  -((info.unbucketed_at_some_point).map fun account =>
    let txns := info.bucketed_candidate_txns account
    if txns.isEmpty then 0 else txn_amount_sum txns).sum

/-- The printed per-account offender lists of
`check_for_bucketed_txns_in_unbucketed_accounts`. -/
def check_for_bucketed_txns_report (info : BasicInfo) :
    List (Nat × List Transaction) :=
  (info.unbucketed_at_some_point).filterMap fun account =>
    let txns := info.bucketed_candidate_txns account
    if txns.isEmpty then none else some (account, txns)

/-- The split children of a parent key (`txn.split_parent == txn_key`,
an equality test, not truthiness), in storage order. -/
def split_children (info : BasicInfo) (k : Nat) : List Transaction :=
  info.transactions.filter fun txn => txn.split_parent == some k

/-- The unsplit residual of a split parent: parent amount minus the
rounded sum of its children. -/
def split_residual (info : BasicInfo) (parent : Transaction) : ℚ :=
  parent.amount - txn_amount_sum (info.split_children parent.key)

/-- `check_splits`: over the split-parent set, accumulate the residual
into the returned total only when it is at least one cent in magnitude,
the parent's account is bucketed on the parent's date, and the parent is
dated after the cash flow start.  (A split-parent key that does not
resolve — a `KeyError` in the source — contributes nothing.) -/
def check_splits (info : BasicInfo) : ℚ :=
  ((info.splitKeys).map fun k =>
    match info.findTxn k with
    | none => 0
    | some parent =>
        let error := info.split_residual parent
        if 1/100 ≤ |error| &&
            info.is_account_bucketed parent.account (some parent.date) &&
            decide (info.cashFlowStart < parent.date) then
          error
        else 0).sum

/-- The offending transactions printed by `check_splits`: for each parent
whose residual is at least one cent, the parent followed by its children,
in split-set and storage order (no date sorting). -/
def check_splits_report (info : BasicInfo) : List Transaction :=
  (info.splitKeys).flatMap fun k =>
    match info.findTxn k with
    | none => []
    | some parent =>
        if 1/100 ≤ |info.split_residual parent| then
          parent :: info.split_children k
        else []

/-- Transfer legs of a bucketed-at-some-point account after the cash flow
start (bucketed dates only for semi-bucketed accounts). -/
def bucketed_account_xfers (info : BasicInfo) (account : Nat) : List Transaction :=
  let txns := txns_in_account info.transactions account
  let txns := txns_between_dates txns (info.cashFlowStart + 1) none
  let txns :=
    if (info.sometimes_bucketed_accounts).contains account then
      txns.filter fun txn => info.is_account_bucketed account (some txn.date)
    else txns
  txns.filter fun txn => otruthy txn.transfer_sibling

/-- Offending legs to bucketed-account siblings: they carry a bucket but
should not; sorted by date. -/
def xfers_to_bucketed_offenders (info : BasicInfo) (account : Nat) : List Transaction :=
  sortByDate
    (((info.bucketed_account_xfers account).filter fun txn =>
        info.is_txn_xfer_sibling_bucketed txn).filter fun txn => otruthy txn.bucket)

/-- Offending legs to unbucketed-account siblings: they carry no bucket
but should; sorted by date. -/
def xfers_to_unbucketed_offenders (info : BasicInfo) (account : Nat) : List Transaction :=
  sortByDate
    (((info.bucketed_account_xfers account).filter fun txn =>
        !(info.is_txn_xfer_sibling_bucketed txn)).filter fun txn => !(otruthy txn.bucket))

/-- `check_bucketed_account_transfers`: error sum over all
bucketed-at-some-point accounts. -/
def check_bucketed_account_transfers (info : BasicInfo) : ℚ :=
  ((info.bucketed_at_some_point).map fun account =>
    let xtb := info.xfers_to_bucketed_offenders account
    let xtu := info.xfers_to_unbucketed_offenders account
    (if xtb.isEmpty then 0 else txn_amount_sum xtb) +
      (if xtu.isEmpty then 0 else txn_amount_sum xtu)).sum

/-- The printed per-account offender lists of
`check_bucketed_account_transfers` (bucketed-sibling legs, then
unbucketed-sibling legs). -/
def check_bucketed_account_transfers_report (info : BasicInfo) :
    List (Nat × List Transaction × List Transaction) :=
  (info.bucketed_at_some_point).filterMap fun account =>
    let xtb := info.xfers_to_bucketed_offenders account
    let xtu := info.xfers_to_unbucketed_offenders account
    if xtb.isEmpty && xtu.isEmpty then none else some (account, xtb, xtu)

/-- Offending transfer legs of `check_unbucketed_account_transfers`:
transfer legs of the account after the cash flow start (unbucketed dates
only for semi-bucketed accounts) carrying a bucket; sorted by date. -/
def unbucketed_xfer_offenders (info : BasicInfo) (account : Nat) : List Transaction :=
  let txns := txns_in_account info.transactions account
  let txns := txns_between_dates txns (info.cashFlowStart + 1) none
  let txns :=
    if (info.sometimes_bucketed_accounts).contains account then
      txns.filter fun txn => !(info.is_account_bucketed account (some txn.date))
    else txns
  let xfers := txns.filter fun txn => otruthy txn.transfer_sibling
  sortByDate (xfers.filter fun txn => otruthy txn.bucket)

/-- `check_unbucketed_account_transfers`: negated error sum. -/
def check_unbucketed_account_transfers (info : BasicInfo) : ℚ :=
  -((info.unbucketed_at_some_point).map fun account =>
    let xfers := info.unbucketed_xfer_offenders account
    if xfers.isEmpty then 0 else txn_amount_sum xfers).sum

/-- The printed per-account offender lists of
`check_unbucketed_account_transfers`. -/
def check_unbucketed_account_transfers_report (info : BasicInfo) :
    List (Nat × List Transaction) :=
  (info.unbucketed_at_some_point).filterMap fun account =>
    let xfers := info.unbucketed_xfer_offenders account
    if xfers.isEmpty then none else some (account, xfers)

end BasicInfo

namespace BasicInfo

/-! ### State-passing renderings of the checks, for reasoning about
mutation.  Auditing the source methods: none of the seven `check_*`
methods assigns to any attribute of `self`; the in-place `sort` calls act
on lists freshly built by list comprehensions, never on
`self.transactions` (a dictionary) or any other attribute.  The
post-state of a check is therefore the input snapshot itself, which is
what the second component of each `_st` function records. -/

/-- `check_cash_flow_start` with its post-state. -/
def check_cash_flow_start_st (info : BasicInfo)
    (accounts_to_include : Option (List Nat)) : ℚ × BasicInfo :=
  (info.check_cash_flow_start accounts_to_include, info)

/-- `check_bucket_balances` with its post-state. -/
def check_bucket_balances_st (info : BasicInfo) (date : Option Nat) :
    Bool × BasicInfo :=
  (info.check_bucket_balances date, info)

/-- `check_for_unbucketed_txns_in_bucketed_accounts` with its post-state. -/
def check_for_unbucketed_txns_st (info : BasicInfo) : ℚ × BasicInfo :=
  (info.check_for_unbucketed_txns_in_bucketed_accounts, info)

/-- `check_for_bucketed_txns_in_unbucketed_accounts` with its post-state. -/
def check_for_bucketed_txns_st (info : BasicInfo) : ℚ × BasicInfo :=
  (info.check_for_bucketed_txns_in_unbucketed_accounts, info)

/-- `check_splits` with its post-state. -/
def check_splits_st (info : BasicInfo) : ℚ × BasicInfo :=
  (info.check_splits, info)

/-- `check_bucketed_account_transfers` with its post-state. -/
def check_bucketed_account_transfers_st (info : BasicInfo) : ℚ × BasicInfo :=
  (info.check_bucketed_account_transfers, info)

/-- `check_unbucketed_account_transfers` with its post-state. -/
def check_unbucketed_account_transfers_st (info : BasicInfo) : ℚ × BasicInfo :=
  (info.check_unbucketed_account_transfers, info)

/-! ### Fused single-pass offender predicates.  These restate the filter
pipelines of the checks as one boolean predicate per transaction, used to
characterize what each check sums and reports. -/

/-- A transaction the unbucketed-transactions check charges to `account`:
owned by it, strictly after the cash flow start, on a bucketed date when
the account is semi-bucketed, not a split parent, not a transfer, bucket
unassigned (`None`), non-zero amount. -/
def unbucketed_offender (info : BasicInfo) (account : Nat) (txn : Transaction) : Bool :=
  txn.account == account &&
  decide (info.cashFlowStart < txn.date) &&
  (!(info.sometimes_bucketed_accounts).contains account ||
    info.is_account_bucketed account (some txn.date)) &&
  !(info.is_txn_split txn.key) &&
  !(otruthy txn.transfer_sibling) &&
  txn.bucket == none &&
  decide (txn.amount ≠ 0)

/-- A transfer leg the bucketed-side transfer check charges to `account`
on its bucketed-sibling side: a transfer leg of the account strictly
after the cash flow start (bucketed date when semi-bucketed), whose
sibling resolves into a bucketed account, carrying a (truthy) bucket. -/
def xfer_to_bucketed_offender (info : BasicInfo) (account : Nat) (txn : Transaction) : Bool :=
  txn.account == account &&
  decide (info.cashFlowStart < txn.date) &&
  (!(info.sometimes_bucketed_accounts).contains account ||
    info.is_account_bucketed account (some txn.date)) &&
  otruthy txn.transfer_sibling &&
  info.is_txn_xfer_sibling_bucketed txn &&
  otruthy txn.bucket

/-- A transfer leg the bucketed-side transfer check charges to `account`
on its unbucketed-sibling side: as above but the sibling does not resolve
into a bucketed account and the leg carries no (truthy) bucket. -/
def xfer_to_unbucketed_offender (info : BasicInfo) (account : Nat) (txn : Transaction) : Bool :=
  txn.account == account &&
  decide (info.cashFlowStart < txn.date) &&
  (!(info.sometimes_bucketed_accounts).contains account ||
    info.is_account_bucketed account (some txn.date)) &&
  otruthy txn.transfer_sibling &&
  !(info.is_txn_xfer_sibling_bucketed txn) &&
  !(otruthy txn.bucket)

end BasicInfo

/-! ### Definitions written from the claims' own words, for comparison
with the source functions (used by refutations only). -/

/-- Modelled from the claim wording for the unbucketed-transactions
check: the same per-account total, but over "proper (split-child-
excluding)" transactions, i.e. with the `split_parent is None` filter of
`proper_txns` in place of the source's split-parent exclusion. -/
def claimed_unbucketed_txns_total (info : BasicInfo) : ℚ :=
  ((info.bucketed_at_some_point).map fun account =>
    let txns := (proper_txns info.transactions).filter fun txn =>
      txn.account == account &&
      decide (info.cashFlowStart < txn.date) &&
      (!(info.sometimes_bucketed_accounts).contains account ||
        info.is_account_bucketed account (some txn.date)) &&
      !(otruthy txn.transfer_sibling) &&
      txn.bucket == none &&
      decide (txn.amount ≠ 0)
    if txns.isEmpty then 0 else txn_amount_sum txns).sum

/-- Modelled from the claim wording for the bucketed-side transfer
check: the same error sum, but inspecting only "non-split" transfer legs,
i.e. with every leg that is a split transaction (`is_txn_split`)
excluded before classification. -/
def claimed_bucketed_transfer_total (info : BasicInfo) : ℚ :=
  ((info.bucketed_at_some_point).map fun account =>
    let xtb := (info.bucketed_account_xfers account).filter fun txn =>
      !(info.is_txn_split txn.key) &&
      info.is_txn_xfer_sibling_bucketed txn && otruthy txn.bucket
    let xtu := (info.bucketed_account_xfers account).filter fun txn =>
      !(info.is_txn_split txn.key) &&
      !(info.is_txn_xfer_sibling_bucketed txn) && !(otruthy txn.bucket)
    (if xtb.isEmpty then 0 else txn_amount_sum xtb) +
      (if xtu.isEmpty then 0 else txn_amount_sum xtu)).sum

/-- The date ordering on reported transactions. -/
def dateSorted (txns : List Transaction) : Prop :=
  List.Sorted (fun s t : Transaction => s.date ≤ t.date) txns

/-- All transaction and money-flow amounts of a snapshot are whole cents. -/
def CentValued (info : BasicInfo) : Prop :=
  (∀ txn ∈ info.transactions, isCent txn.amount) ∧
    (∀ flow ∈ info.moneyFlows, isCent flow.amount)

/-! ## Concrete snapshots used by witnesses and refutations -/

/-- A cent-valued snapshot exercising `bucket_balance`: a starting
balance, one transaction on the start date (excluded), one after it, and
one money flow after it. -/
def infoCent : BasicInfo where
  accounts := [⟨1, "Checking", true⟩]
  buckets := [⟨2, "Groceries", false⟩]
  cashFlowStart := 10
  startingBucketBalances := [(2, 3)]
  transactions :=
    [⟨1, 15, 1, false, some 2, none, none, "Store", "", 5⟩,
     ⟨2, 10, 1, false, some 2, none, none, "Early", "", 7⟩]
  moneyFlows := [⟨1, 12, 2, 2, "fill", 7⟩]
  semiBucketedAccounts := []

/-- A snapshot whose bucketed accounts exceed the buckets by 5: one
bucketed account holding 5, no buckets at all. -/
def infoAccHeavy : BasicInfo where
  accounts := [⟨1, "Checking", true⟩]
  buckets := []
  cashFlowStart := 0
  startingBucketBalances := []
  transactions := [⟨1, 5, 1, false, none, none, none, "Pay", "", 5⟩]
  moneyFlows := []
  semiBucketedAccounts := []

/-- A snapshot whose buckets exceed the bucketed accounts by 7: one
bucket with starting balance 7, no accounts at all. -/
def infoBktHeavy : BasicInfo where
  accounts := []
  buckets := [⟨1, "Savings", false⟩]
  cashFlowStart := 0
  startingBucketBalances := [(1, 7)]
  transactions := []
  moneyFlows := []
  semiBucketedAccounts := []

/-- A statically-unbucketed account with one override range, as in the
source's `cross_setup`. -/
def infoSemi : BasicInfo where
  accounts := [⟨7, "DCU Visa Gold", false⟩]
  buckets := []
  cashFlowStart := 0
  startingBucketBalances := []
  transactions := []
  moneyFlows := []
  semiBucketedAccounts := [(7, [⟨100, 200⟩])]

/-- A bucketed account holding a split: the parent carries a bucket, its
child does not.  The unbucketed-transactions check excludes the parent
(a split parent) yet keeps the child. -/
def infoSplitChild : BasicInfo where
  accounts := [⟨1, "Checking", true⟩]
  buckets := [⟨1, "Food", false⟩]
  cashFlowStart := 0
  startingBucketBalances := []
  transactions :=
    [⟨1, 10, 1, false, some 1, none, none, "Parent", "", 10⟩,
     ⟨2, 10, 1, false, none, none, some 1, "Child", "", 4⟩]
  moneyFlows := []
  semiBucketedAccounts := []

/-- The claim's split scenario: a parent of 100.00 with children of
60.00 and 39.99, in a bucketed account after the cash flow start. -/
def infoSplitPenny : BasicInfo where
  accounts := [⟨1, "Checking", true⟩]
  buckets := []
  cashFlowStart := 0
  startingBucketBalances := []
  transactions :=
    [⟨1, 5, 1, false, none, none, none, "Parent", "", 100⟩,
     ⟨2, 5, 1, false, some 1, none, some 1, "Child A", "", 60⟩,
     ⟨3, 5, 1, false, some 2, none, some 1, "Child B", "", 3999/100⟩]
  moneyFlows := []
  semiBucketedAccounts := []

/-- A transfer between two bucketed accounts whose first leg is a split
parent and erroneously carries a bucket. -/
def infoSplitXfer : BasicInfo where
  accounts := [⟨1, "Checking", true⟩, ⟨2, "Savings", true⟩]
  buckets := [⟨3, "Misc", false⟩]
  cashFlowStart := 0
  startingBucketBalances := []
  transactions :=
    [⟨1, 10, 1, false, some 3, some 2, none, "Xfer out", "", 10⟩,
     ⟨2, 10, 2, false, none, some 1, none, "Xfer in", "", -10⟩,
     ⟨4, 10, 1, false, none, none, some 1, "Child", "", 6⟩]
  moneyFlows := []
  semiBucketedAccounts := []

/-- A split whose children are stored with descending dates, so the
split check's report is not date-sorted. -/
def infoUnsortedSplit : BasicInfo where
  accounts := [⟨1, "Checking", true⟩]
  buckets := []
  cashFlowStart := 0
  startingBucketBalances := []
  transactions :=
    [⟨1, 10, 1, false, none, none, none, "Parent", "", 100⟩,
     ⟨2, 20, 1, false, some 1, none, some 1, "Late child", "", 60⟩,
     ⟨3, 5, 1, false, some 2, none, some 1, "Early child", "", 10⟩]
  moneyFlows := []
  semiBucketedAccounts := []

/-- A lone split child assigned to a bucket: it counts for the bucket
balance but not for the account balance. -/
def infoLoneChild : BasicInfo where
  accounts := [⟨1, "Checking", true⟩]
  buckets := [⟨1, "Food", false⟩]
  cashFlowStart := 0
  startingBucketBalances := []
  transactions := [⟨2, 10, 1, false, some 1, none, some 99, "Child", "", 5⟩]
  moneyFlows := []
  semiBucketedAccounts := []

/-- A transfer leg whose sibling key resolves to no transaction. -/
def infoDangling : BasicInfo where
  accounts := [⟨1, "Checking", true⟩]
  buckets := []
  cashFlowStart := 0
  startingBucketBalances := []
  transactions := [⟨1, 10, 1, false, none, some 99, none, "Orphan", "", 5⟩]
  moneyFlows := []
  semiBucketedAccounts := []

/-! ## General lemmas about rounding, cent values, sorting and filters -/

theorem pyRound_intCast (z : ℤ) : pyRound (z : ℚ) = z := by
  unfold pyRound
  have hhalf : ⌊(1/2 : ℚ)⌋ = 0 := by norm_num [Int.floor_eq_iff]
  have hfloor : ∀ w : ℤ, ⌊(w : ℚ) + 1/2⌋ = w := by
    intro w
    rw [Int.floor_int_add, hhalf, add_zero]
  by_cases h : (0 : ℚ) ≤ (z : ℚ)
  · rw [if_pos h, hfloor]
  · rw [if_neg h]
    have hneg : (-(z : ℚ)) = ((-z : ℤ) : ℚ) := by push_cast; ring
    rw [hneg, hfloor]
    ring

theorem isCent_iff (q : ℚ) : isCent q ↔ ∃ z : ℤ, q = (z : ℚ) / 100 := by
  constructor
  · intro h
    refine ⟨(q * 100).num, ?_⟩
    have h1 : (((q * 100).num : ℚ)) = q * 100 := (Rat.den_eq_one_iff _).mp h
    rw [h1]
    field_simp
  · rintro ⟨z, rfl⟩
    unfold isCent
    have : (z : ℚ) / 100 * 100 = (z : ℚ) := by field_simp
    rw [this, Rat.den_intCast]

theorem round2_eq_self (q : ℚ) (h : isCent q) : round2 q = q := by
  obtain ⟨z, rfl⟩ := (isCent_iff q).mp h
  unfold round2
  have : (z : ℚ) / 100 * 100 = (z : ℚ) := by field_simp
  rw [this, pyRound_intCast]

theorem isCent_zero : isCent 0 := by
  unfold isCent
  norm_num

theorem isCent_add {a b : ℚ} (ha : isCent a) (hb : isCent b) : isCent (a + b) := by
  obtain ⟨x, rfl⟩ := (isCent_iff a).mp ha
  obtain ⟨y, rfl⟩ := (isCent_iff b).mp hb
  refine (isCent_iff _).mpr ⟨x + y, ?_⟩
  push_cast
  ring

theorem isCent_sum (l : List ℚ) (h : ∀ x ∈ l, isCent x) : isCent l.sum := by
  induction l with
  | nil => simpa using isCent_zero
  | cons a t ih =>
      rw [List.sum_cons]
      exact isCent_add (h a (by simp)) (ih fun x hx => h x (by simp [hx]))

theorem round2_zero : round2 0 = 0 :=
  round2_eq_self 0 isCent_zero

theorem sortByDate_perm (txns : List Transaction) : (sortByDate txns).Perm txns :=
  List.mergeSort_perm txns _

theorem sortByDate_amount_sum (txns : List Transaction) :
    txn_amount_sum (sortByDate txns) = txn_amount_sum txns := by
  unfold txn_amount_sum
  rw [((sortByDate_perm txns).map fun txn => txn.amount).sum_eq]

theorem sortByDate_isEmpty (txns : List Transaction) :
    (sortByDate txns).isEmpty = txns.isEmpty := by
  have hlen := (sortByDate_perm txns).length_eq
  rcases h : sortByDate txns with _ | ⟨a, t⟩ <;>
    rcases h2 : txns with _ | ⟨b, u⟩ <;> simp_all

theorem sortByDate_sorted (txns : List Transaction) :
    dateSorted (sortByDate txns) := by
  have h := @List.sorted_mergeSort Transaction
    (fun s t : Transaction => decide (s.date ≤ t.date))
    (fun a b c hab hbc => by
      simp only [decide_eq_true_eq] at *
      exact Nat.le_trans hab hbc)
    (fun a b => by
      simpa using Nat.le_total a.date b.date) txns
  unfold dateSorted List.Sorted sortByDate
  simpa using h

theorem sortByDate_mem (txns : List Transaction) (txn : Transaction) :
    txn ∈ sortByDate txns ↔ txn ∈ txns :=
  (sortByDate_perm txns).mem_iff

/-! ## Claim theorems -/

/-- C3: `is_account_bucketed(a, d)` is true iff `d` falls in one of the
account's override ranges when the account has a semi-bucketed entry
(the static flag is then never consulted, whatever the date), and equals
the account's static `bucketed` flag when it has no such entry. -/
theorem is_account_bucketed_spec (info : BasicInfo) (a d : Nat) (acct : Account)
    (hacct : info.findAccount a = some acct) :
    info.is_account_bucketed a (some d) = true ↔
      (match info.semiLookup a with
       | some ranges => ∃ r ∈ ranges, r.datestart ≤ d ∧ d ≤ r.dateend
       | none => acct.bucketed = true) := by
  unfold BasicInfo.is_account_bucketed
  cases hsemi : info.semiLookup a with
  | some ranges =>
      simp only [List.any_eq_true, DateRange.includes_date, Bool.and_eq_true,
        decide_eq_true_eq]
  | none =>
      rw [hacct]
      simp

/-- Witness for C3 on a concrete snapshot: account 7 is statically
unbucketed but has the override range [100, 200]. -/
theorem is_account_bucketed_spec_witness :
    infoSemi.findAccount 7 = some ⟨7, "DCU Visa Gold", false⟩ ∧
      (infoSemi.is_account_bucketed 7 (some 150) = true ↔
        (match infoSemi.semiLookup 7 with
         | some ranges => ∃ r ∈ ranges, r.datestart ≤ 150 ∧ 150 ≤ r.dateend
         | none => (Account.mk 7 "DCU Visa Gold" false).bucketed = true)) :=
  ⟨rfl, is_account_bucketed_spec infoSemi 7 150 ⟨7, "DCU Visa Gold", false⟩ rfl⟩

/-- C7: when a transaction's transfer-sibling key resolves to no stored
transaction, `get_xfer_sibling` returns the explicit `none` outcome and
the sibling-property test `is_txn_xfer_sibling_bucketed` returns `false`
instead of failing. -/
theorem dangling_sibling_handled (info : BasicInfo) (txn : Transaction)
    (h : ∀ k, txn.transfer_sibling = some k → info.findTxn k = none) :
    info.get_xfer_sibling txn = none ∧
      info.is_txn_xfer_sibling_bucketed txn = false := by
  unfold BasicInfo.get_xfer_sibling BasicInfo.is_txn_xfer_sibling_bucketed
  cases hts : txn.transfer_sibling with
  | none => exact ⟨rfl, rfl⟩
  | some k => simp [h k hts]

/-- Witness for C7: a transfer leg naming sibling key 99 in a snapshot
holding no transaction with that key. -/
theorem dangling_sibling_handled_witness :
    infoDangling.get_xfer_sibling ⟨1, 10, 1, false, none, some 99, none, "Orphan", "", 5⟩ = none ∧
      infoDangling.is_txn_xfer_sibling_bucketed
        ⟨1, 10, 1, false, none, some 99, none, "Orphan", "", 5⟩ = false :=
  dangling_sibling_handled infoDangling ⟨1, 10, 1, false, none, some 99, none, "Orphan", "", 5⟩
    (fun k hk => by
      have hk99 : k = 99 := by
        simpa using hk.symm
      subst hk99
      rfl)

/-- C8: in the state-passing rendering of the seven checks, every check
leaves the snapshot (accounts, buckets, transactions, money flows,
starting balances, split set, semi-bucketed ranges) unchanged, and a
second run on the resulting state returns the same result as the first
run. -/
theorem checks_idempotent (info : BasicInfo) (date : Option Nat)
    (accs : Option (List Nat)) :
    (info.check_cash_flow_start_st accs).2 = info ∧
      ((info.check_cash_flow_start_st accs).2.check_cash_flow_start_st accs).1 =
        (info.check_cash_flow_start_st accs).1 ∧
    (info.check_bucket_balances_st date).2 = info ∧
      ((info.check_bucket_balances_st date).2.check_bucket_balances_st date).1 =
        (info.check_bucket_balances_st date).1 ∧
    (info.check_for_unbucketed_txns_st).2 = info ∧
      ((info.check_for_unbucketed_txns_st).2.check_for_unbucketed_txns_st).1 =
        (info.check_for_unbucketed_txns_st).1 ∧
    (info.check_for_bucketed_txns_st).2 = info ∧
      ((info.check_for_bucketed_txns_st).2.check_for_bucketed_txns_st).1 =
        (info.check_for_bucketed_txns_st).1 ∧
    (info.check_splits_st).2 = info ∧
      ((info.check_splits_st).2.check_splits_st).1 = (info.check_splits_st).1 ∧
    (info.check_bucketed_account_transfers_st).2 = info ∧
      ((info.check_bucketed_account_transfers_st).2.check_bucketed_account_transfers_st).1 =
        (info.check_bucketed_account_transfers_st).1 ∧
    (info.check_unbucketed_account_transfers_st).2 = info ∧
      ((info.check_unbucketed_account_transfers_st).2.check_unbucketed_account_transfers_st).1 =
        (info.check_unbucketed_account_transfers_st).1 :=
  ⟨rfl, rfl, rfl, rfl, rfl, rfl, rfl, rfl, rfl, rfl, rfl, rfl, rfl, rfl⟩

/-- Refutation of C2 as stated: `check_bucket_balances` does not return
the signed error `account-side total - bucket-side total`.  On
`infoAccHeavy` that signed error is `5`, on `infoBktHeavy` it is `-7`,
yet the check returns the same value (`false`) for both, so its return
value cannot be the signed error for either convention. -/
theorem check_bucket_balances_not_signed_error :
    infoAccHeavy.check_bucket_balances none = false ∧
      infoBktHeavy.check_bucket_balances none = false ∧
      infoAccHeavy.total_bucketed_account_balance none -
        infoAccHeavy.total_bucket_balance none = 5 ∧
      infoBktHeavy.total_bucketed_account_balance none -
        infoBktHeavy.total_bucket_balance none = -7 ∧
      (5 : ℚ) ≠ -7 := by
  have h5 : infoAccHeavy.total_bucketed_account_balance none = 5 := by
    norm_num [BasicInfo.total_bucketed_account_balance, BasicInfo.total_account_balance,
      BasicInfo.bucketed_accounts, BasicInfo.is_account_bucketed, BasicInfo.semiLookup,
      BasicInfo.findAccount, BasicInfo.account_balance, infoAccHeavy, proper_txns,
      txns_in_account, txn_amount_sum, List.find?, round2, pyRound, Int.floor_eq_iff]
  have h0 : infoAccHeavy.total_bucket_balance none = 0 := by
    norm_num [BasicInfo.total_bucket_balance, infoAccHeavy, round2, pyRound,
      Int.floor_eq_iff]
  have h0b : infoBktHeavy.total_bucketed_account_balance none = 0 := by
    norm_num [BasicInfo.total_bucketed_account_balance, BasicInfo.total_account_balance,
      BasicInfo.bucketed_accounts, infoBktHeavy, round2, pyRound, Int.floor_eq_iff]
  have h7 : infoBktHeavy.total_bucket_balance none = 7 := by
    norm_num [BasicInfo.total_bucket_balance, BasicInfo.bucket_balance,
      BasicInfo.starting_balance, infoBktHeavy, txns_between_dates, txns_in_bucket,
      flows_between_dates, flows_in_bucket, txn_amount_sum, flow_amount_sum,
      List.find?, round2, pyRound, Int.floor_eq_iff]
  refine ⟨?_, ?_, by rw [h5, h0]; norm_num, by rw [h0b, h7]; norm_num, by norm_num⟩
  · unfold BasicInfo.check_bucket_balances
    rw [h5, h0]
    norm_num
  · unfold BasicInfo.check_bucket_balances
    rw [h0b, h7]
    norm_num

/-- C2 amended: the checks do follow the signed convention
`account-side total - bucket-side total` with one exception — the
bucket-vs-account check returns a boolean, `true` exactly when
`total_bucketed_account_balance(date)` equals `total_bucket_balance(date)`
(the cash-flow-start check, by contrast, does return the signed error). -/
theorem check_bucket_balances_characterization (info : BasicInfo) :
    (∀ date : Option Nat,
      (info.check_bucket_balances date = true ↔
        info.total_bucketed_account_balance date = info.total_bucket_balance date)) ∧
    (∀ accounts_to_include : Option (List Nat),
      info.check_cash_flow_start accounts_to_include =
        round2 (((accounts_to_include.getD
            (info.bucketed_accounts (some info.cashFlowStart))).map fun a =>
          info.account_balance a (some info.cashFlowStart)).sum) -
        round2 ((info.startingBucketBalances.map fun p => p.2).sum)) := by
  constructor
  · intro date
    unfold BasicInfo.check_bucket_balances
    exact beq_iff_eq
  · intro accounts_to_include
    cases accounts_to_include <;> rfl

theorem txn_amount_sum_nil : txn_amount_sum [] = 0 := by
  unfold txn_amount_sum
  simpa using round2_zero

/-- The filter pipeline of the unbucketed-transactions check, fused into
the single predicate `unbucketed_offender`. -/
theorem unbucketed_candidate_txns_eq (info : BasicInfo) (a : Nat) :
    info.unbucketed_candidate_txns a =
      sortByDate (info.transactions.filter (info.unbucketed_offender a)) := by
  unfold BasicInfo.unbucketed_candidate_txns BasicInfo.unbucketed_offender
    txns_in_account txns_between_dates
  by_cases hc : (info.sometimes_bucketed_accounts).contains a = true
  · simp only [hc, if_true, List.filter_filter]
    congr 1
    refine List.filter_congr fun txn _ => ?_
    rw [Bool.eq_iff_iff]
    simp only [Bool.and_eq_true, Bool.or_eq_true, Bool.not_eq_true',
      decide_eq_true_eq, dleq, hc, Bool.not_true, Bool.false_eq_true, false_or,
      Nat.lt_iff_add_one_le]
    tauto
  · rw [Bool.not_eq_true] at hc
    simp only [hc, Bool.false_eq_true, if_false, List.filter_filter]
    congr 1
    refine List.filter_congr fun txn _ => ?_
    rw [Bool.eq_iff_iff]
    simp only [Bool.and_eq_true, Bool.or_eq_true, Bool.not_eq_true',
      decide_eq_true_eq, dleq, hc, Bool.not_false, true_or,
      Nat.lt_iff_add_one_le]
    tauto

/-- C4 amended: the unbucketed-transactions check totals and reports, for
every bucketed-at-some-point account, precisely its `unbucketed_offender`
transactions — after the cash-flow start, bucketed-date-restricted for
semi-bucketed accounts, non-transfer, bucketless, non-zero, and excluding
split parents (split children are kept; the spec's "proper" split-child
filter is not what the check applies). -/
theorem check_unbucketed_txns_characterization (info : BasicInfo) :
    (∀ a, info.unbucketed_candidate_txns a =
        sortByDate (info.transactions.filter (info.unbucketed_offender a))) ∧
      info.check_for_unbucketed_txns_in_bucketed_accounts =
        ((info.bucketed_at_some_point).map fun a =>
          txn_amount_sum (info.transactions.filter (info.unbucketed_offender a))).sum := by
  refine ⟨unbucketed_candidate_txns_eq info, ?_⟩
  unfold BasicInfo.check_for_unbucketed_txns_in_bucketed_accounts
  congr 1
  refine List.map_congr_left fun a _ => ?_
  rw [unbucketed_candidate_txns_eq info a]
  by_cases he : (info.transactions.filter (info.unbucketed_offender a)).isEmpty = true
  · rw [List.isEmpty_iff] at he
    simp [he, sortByDate, txn_amount_sum_nil]
  · rw [Bool.not_eq_true] at he
    simp only [sortByDate_isEmpty, he, Bool.false_eq_true, if_false]
    exact sortByDate_amount_sum _

/-- The transaction filter inside `bucket_balance`, fused: assigned to
the bucket, strictly after the cash flow start, at or before the query
date. -/
theorem bucket_txn_filter_eq (info : BasicInfo) (b : Nat) (date : Option Nat) :
    txns_between_dates (txns_in_bucket info.transactions b)
        (info.cashFlowStart + 1) date =
      info.transactions.filter fun txn =>
        txn.bucket == some b && decide (info.cashFlowStart < txn.date) &&
          dleq txn.date date := by
  unfold txns_between_dates txns_in_bucket
  rw [List.filter_filter]
  refine List.filter_congr fun txn _ => ?_
  rw [Bool.eq_iff_iff]
  simp only [Bool.and_eq_true, decide_eq_true_eq, Nat.lt_iff_add_one_le]
  tauto

/-- The money-flow filter inside `bucket_balance`, fused. -/
theorem bucket_flow_filter_eq (info : BasicInfo) (b : Nat) (date : Option Nat) :
    flows_between_dates (flows_in_bucket info.moneyFlows b)
        (info.cashFlowStart + 1) date =
      info.moneyFlows.filter fun flow =>
        flow.bucket == b && decide (info.cashFlowStart < flow.date) &&
          dleq flow.date date := by
  unfold flows_between_dates flows_in_bucket
  rw [List.filter_filter]
  refine List.filter_congr fun flow _ => ?_
  rw [Bool.eq_iff_iff]
  simp only [Bool.and_eq_true, decide_eq_true_eq, Nat.lt_iff_add_one_le]
  tauto

/-- C1: for a cent-valued snapshot, `bucket_balance(b, date)` is the
bucket's starting balance (0 when absent from the mapping) plus the sum
of amounts of the bucket's transactions dated strictly after the cash
flow start and at or before `date`, plus the sum of amounts of the
bucket's money flows in the same window, the result rounded to cents.
(The source also rounds the two partial sums, which is the identity on
cent-valued data.) -/
theorem bucket_balance_spec (info : BasicInfo) (b : Nat) (date : Option Nat)
    (h : CentValued info) :
    info.bucket_balance b date =
      round2 (info.starting_balance b +
        ((info.transactions.filter fun txn =>
          txn.bucket == some b && decide (info.cashFlowStart < txn.date) &&
            dleq txn.date date).map fun txn => txn.amount).sum +
        ((info.moneyFlows.filter fun flow =>
          flow.bucket == b && decide (info.cashFlowStart < flow.date) &&
            dleq flow.date date).map fun flow => flow.amount).sum) := by
  have htx : isCent ((info.transactions.filter fun txn =>
      txn.bucket == some b && decide (info.cashFlowStart < txn.date) &&
        dleq txn.date date).map fun txn => txn.amount).sum := by
    refine isCent_sum _ fun x hx => ?_
    obtain ⟨txn, htxn, rfl⟩ := List.mem_map.mp hx
    exact h.1 txn (List.mem_filter.mp htxn).1
  have hfl : isCent ((info.moneyFlows.filter fun flow =>
      flow.bucket == b && decide (info.cashFlowStart < flow.date) &&
        dleq flow.date date).map fun flow => flow.amount).sum := by
    refine isCent_sum _ fun x hx => ?_
    obtain ⟨flow, hflow, rfl⟩ := List.mem_map.mp hx
    exact h.2 flow (List.mem_filter.mp hflow).1
  simp only [BasicInfo.bucket_balance, txn_amount_sum, flow_amount_sum,
    bucket_txn_filter_eq, bucket_flow_filter_eq]
  rw [round2_eq_self _ htx, round2_eq_self _ hfl]

/-- Witness for C1 on the cent-valued snapshot `infoCent`: the
transaction on the start date is excluded, the later transaction and
money flow counted, and the balance is 3 + 5 + 7 = 15. -/
theorem bucket_balance_spec_witness :
    CentValued infoCent ∧
      (infoCent.bucket_balance 2 none =
        round2 (infoCent.starting_balance 2 +
          ((infoCent.transactions.filter fun txn =>
            txn.bucket == some 2 && decide (infoCent.cashFlowStart < txn.date) &&
              dleq txn.date none).map fun txn => txn.amount).sum +
          ((infoCent.moneyFlows.filter fun flow =>
            flow.bucket == 2 && decide (infoCent.cashFlowStart < flow.date) &&
              dleq flow.date none).map fun flow => flow.amount).sum)) ∧
      infoCent.bucket_balance 2 none = 15 := by
  have hc : CentValued infoCent := by
    constructor
    · intro txn htxn
      simp only [infoCent, List.mem_cons, List.not_mem_nil, or_false] at htxn
      rcases htxn with rfl | rfl
      · exact (isCent_iff _).mpr ⟨500, by norm_num⟩
      · exact (isCent_iff _).mpr ⟨700, by norm_num⟩
    · intro flow hflow
      simp only [infoCent, List.mem_cons, List.not_mem_nil, or_false] at hflow
      rcases hflow with rfl
      exact (isCent_iff _).mpr ⟨700, by norm_num⟩
  refine ⟨hc, bucket_balance_spec infoCent 2 none hc, ?_⟩
  norm_num [BasicInfo.bucket_balance, BasicInfo.starting_balance, infoCent,
    txns_between_dates, txns_in_bucket, flows_between_dates, flows_in_bucket,
    txn_amount_sum, flow_amount_sum, dleq, List.find?, round2, pyRound,
    Int.floor_eq_iff]

/-- C10: `account_balance` sums only transactions whose split-parent
field is unset (the `proper_txns` filter), while `bucket_balance` applies
no such filter to the transactions of the bucket; concretely, a lone
split child assigned to a bucket moves the bucket balance (to 5) but not
the account balance (0). -/
theorem split_children_asymmetry :
    (∀ (info : BasicInfo) (a : Nat) (date : Option Nat),
      info.account_balance a date =
        round2 ((info.transactions.filter fun txn =>
          txn.split_parent.isNone && txn.account == a &&
            dleq txn.date date).map fun txn => txn.amount).sum) ∧
    (∀ (info : BasicInfo) (b : Nat) (date : Option Nat),
      info.bucket_balance b date =
        round2 (info.starting_balance b +
          round2 ((info.transactions.filter fun txn =>
            txn.bucket == some b && decide (info.cashFlowStart < txn.date) &&
              dleq txn.date date).map fun txn => txn.amount).sum +
          round2 ((info.moneyFlows.filter fun flow =>
            flow.bucket == b && decide (info.cashFlowStart < flow.date) &&
              dleq flow.date date).map fun flow => flow.amount).sum)) ∧
    infoLoneChild.account_balance 1 none = 0 ∧
    infoLoneChild.bucket_balance 1 none = 5 := by
  refine ⟨?_, ?_, ?_, ?_⟩
  · intro info a date
    cases date with
    | none =>
        simp only [BasicInfo.account_balance, txn_amount_sum, proper_txns,
          txns_in_account, List.filter_filter]
        congr 3
        refine List.filter_congr fun txn _ => ?_
        rw [Bool.eq_iff_iff]
        simp only [Bool.and_eq_true, dleq]
        tauto
    | some d =>
        simp only [BasicInfo.account_balance, txn_amount_sum, proper_txns,
          txns_in_account, txns_at_or_before_date, txns_between_dates,
          List.filter_filter]
        congr 3
        refine List.filter_congr fun txn _ => ?_
        rw [Bool.eq_iff_iff]
        simp only [Bool.and_eq_true, decide_eq_true_eq, Nat.zero_le, true_and, dleq]
        tauto
  · intro info b date
    simp only [BasicInfo.bucket_balance, txn_amount_sum, flow_amount_sum,
      bucket_txn_filter_eq, bucket_flow_filter_eq]
  · norm_num [BasicInfo.account_balance, proper_txns, txns_in_account,
      txn_amount_sum, infoLoneChild, round2, pyRound, Int.floor_eq_iff]
  · norm_num [BasicInfo.bucket_balance, BasicInfo.starting_balance, infoLoneChild,
      txns_between_dates, txns_in_bucket, flows_between_dates, flows_in_bucket,
      txn_amount_sum, flow_amount_sum, dleq, List.find?, round2, pyRound,
      Int.floor_eq_iff]

/-- C5: `check_splits` compares each split parent's amount with the
rounded sum of its children (`split_residual`); the returned error is the
sum of exactly those residuals that are at least one cent in magnitude
and belong to parents whose account was bucketed on the parent's date,
dated after the cash flow start.  On the claim's scenario — a parent of
100.00 with children 60.00 and 39.99 — the residual is 0.01, it is
returned, and parent and children are reported. -/
theorem check_splits_spec :
    (∀ info : BasicInfo,
      info.check_splits =
        ((((info.splitKeys).filterMap info.findTxn).filter fun parent =>
            decide ((1 : ℚ)/100 ≤ |info.split_residual parent|) &&
            info.is_account_bucketed parent.account (some parent.date) &&
            decide (info.cashFlowStart < parent.date)).map
          fun parent => info.split_residual parent).sum) ∧
    infoSplitPenny.split_residual
        ⟨1, 5, 1, false, none, none, none, "Parent", "", 100⟩ = 1/100 ∧
    infoSplitPenny.check_splits = 1/100 ∧
    infoSplitPenny.check_splits_report =
      [⟨1, 5, 1, false, none, none, none, "Parent", "", 100⟩,
       ⟨2, 5, 1, false, some 1, none, some 1, "Child A", "", 60⟩,
       ⟨3, 5, 1, false, some 2, none, some 1, "Child B", "", 3999/100⟩] := by
  have hgen : ∀ info : BasicInfo,
      info.check_splits =
        ((((info.splitKeys).filterMap info.findTxn).filter fun parent =>
            decide ((1 : ℚ)/100 ≤ |info.split_residual parent|) &&
            info.is_account_bucketed parent.account (some parent.date) &&
            decide (info.cashFlowStart < parent.date)).map
          fun parent => info.split_residual parent).sum := by
    intro info
    unfold BasicInfo.check_splits
    induction info.splitKeys with
    | nil => simp
    | cons k t ih =>
        rw [List.map_cons, List.sum_cons, List.filterMap_cons]
        cases hk : info.findTxn k with
        | none => simpa [hk] using ih
        | some parent =>
            by_cases hcond :
                (decide ((1 : ℚ)/100 ≤ |info.split_residual parent|) &&
                  info.is_account_bucketed parent.account (some parent.date) &&
                  decide (info.cashFlowStart < parent.date)) = true
            · simp only [hk, List.filter_cons, hcond, if_true, List.map_cons,
                List.sum_cons, ih]
            · rw [Bool.not_eq_true] at hcond
              simp only [hk, List.filter_cons, hcond, Bool.false_eq_true,
                if_false, ih, zero_add]
  have hres : infoSplitPenny.split_residual
      ⟨1, 5, 1, false, none, none, none, "Parent", "", 100⟩ = 1/100 := by
    norm_num [BasicInfo.split_residual, BasicInfo.split_children, txn_amount_sum,
      infoSplitPenny, round2, pyRound, Int.floor_eq_iff]
  have hkeys : infoSplitPenny.splitKeys = [1] := by rfl
  have hfind : infoSplitPenny.findTxn 1 =
      some ⟨1, 5, 1, false, none, none, none, "Parent", "", 100⟩ := by rfl
  have habs : |(1 : ℚ)/100| = 1/100 := abs_of_nonneg (by norm_num)
  refine ⟨hgen, hres, ?_, ?_⟩
  · rw [hgen infoSplitPenny, hkeys, List.filterMap_cons, List.filterMap_nil, hfind]
    simp only [Option.toList_some, List.filter_cons, List.filter_nil, hres, habs]
    norm_num [BasicInfo.is_account_bucketed, BasicInfo.semiLookup,
      BasicInfo.findAccount, infoSplitPenny, List.find?, hres]
    exact hres
  · unfold BasicInfo.check_splits_report
    rw [hkeys]
    simp only [List.flatMap_cons, List.flatMap_nil, hfind, hres, habs]
    rw [if_pos (le_refl _)]
    rfl

/-- Refutation of C4 as stated: on `infoSplitChild` the check returns 4
(the bucketless split child's amount), while the claimed total over
"proper" (split-child-excluding) transactions is 0 — the check excludes
split parents, not split children. -/
theorem check_unbucketed_txns_counterexample :
    infoSplitChild.check_for_unbucketed_txns_in_bucketed_accounts = 4 ∧
      claimed_unbucketed_txns_total infoSplitChild = 0 ∧ (4 : ℚ) ≠ 0 := by
  have hacc : infoSplitChild.bucketed_at_some_point = [1] := by rfl
  have hcand : infoSplitChild.unbucketed_candidate_txns 1 =
      [⟨2, 10, 1, false, none, none, some 1, "Child", "", 4⟩] := by
    norm_num [BasicInfo.unbucketed_candidate_txns, txns_in_account,
      txns_between_dates, dleq, BasicInfo.sometimes_bucketed_accounts,
      BasicInfo.is_txn_split, BasicInfo.splitKeysRaw, otruthy, infoSplitChild,
      sortByDate]
  refine ⟨?_, ?_, by norm_num⟩
  · unfold BasicInfo.check_for_unbucketed_txns_in_bucketed_accounts
    rw [hacc]
    simp only [List.map_cons, List.map_nil, hcand]
    norm_num [txn_amount_sum, round2, pyRound, Int.floor_eq_iff]
  · unfold claimed_unbucketed_txns_total
    rw [hacc]
    norm_num [proper_txns, BasicInfo.sometimes_bucketed_accounts, otruthy,
      dleq, infoSplitChild]

/-- The bucketed-sibling offender list of the transfer check, fused. -/
theorem xfers_to_bucketed_offenders_eq (info : BasicInfo) (a : Nat) :
    info.xfers_to_bucketed_offenders a =
      sortByDate (info.transactions.filter (info.xfer_to_bucketed_offender a)) := by
  unfold BasicInfo.xfers_to_bucketed_offenders BasicInfo.bucketed_account_xfers
    BasicInfo.xfer_to_bucketed_offender txns_in_account txns_between_dates
  by_cases hc : (info.sometimes_bucketed_accounts).contains a = true
  · simp only [hc, if_true, List.filter_filter]
    congr 1
    refine List.filter_congr fun txn _ => ?_
    rw [Bool.eq_iff_iff]
    simp only [Bool.and_eq_true, Bool.or_eq_true, Bool.not_eq_true',
      decide_eq_true_eq, dleq, hc, Bool.not_true, Bool.false_eq_true, false_or,
      Nat.lt_iff_add_one_le]
    tauto
  · rw [Bool.not_eq_true] at hc
    simp only [hc, Bool.false_eq_true, if_false, List.filter_filter]
    congr 1
    refine List.filter_congr fun txn _ => ?_
    rw [Bool.eq_iff_iff]
    simp only [Bool.and_eq_true, Bool.or_eq_true, Bool.not_eq_true',
      decide_eq_true_eq, dleq, hc, Bool.not_false, true_or,
      Nat.lt_iff_add_one_le]
    tauto

/-- The unbucketed-sibling offender list of the transfer check, fused. -/
theorem xfers_to_unbucketed_offenders_eq (info : BasicInfo) (a : Nat) :
    info.xfers_to_unbucketed_offenders a =
      sortByDate (info.transactions.filter (info.xfer_to_unbucketed_offender a)) := by
  unfold BasicInfo.xfers_to_unbucketed_offenders BasicInfo.bucketed_account_xfers
    BasicInfo.xfer_to_unbucketed_offender txns_in_account txns_between_dates
  by_cases hc : (info.sometimes_bucketed_accounts).contains a = true
  · simp only [hc, if_true, List.filter_filter]
    congr 1
    refine List.filter_congr fun txn _ => ?_
    rw [Bool.eq_iff_iff]
    simp only [Bool.and_eq_true, Bool.or_eq_true, Bool.not_eq_true',
      decide_eq_true_eq, dleq, hc, Bool.not_true, Bool.false_eq_true, false_or,
      Nat.lt_iff_add_one_le]
    tauto
  · rw [Bool.not_eq_true] at hc
    simp only [hc, Bool.false_eq_true, if_false, List.filter_filter]
    congr 1
    refine List.filter_congr fun txn _ => ?_
    rw [Bool.eq_iff_iff]
    simp only [Bool.and_eq_true, Bool.or_eq_true, Bool.not_eq_true',
      decide_eq_true_eq, dleq, hc, Bool.not_false, true_or,
      Nat.lt_iff_add_one_le]
    tauto

/-- An empty offender list contributes 0, a non-empty one its rounded
sum; either way the contribution is the rounded sum of the unsorted
list. -/
theorem sorted_if_sum (l : List Transaction) :
    (if (sortByDate l).isEmpty = true then (0 : ℚ)
      else txn_amount_sum (sortByDate l)) = txn_amount_sum l := by
  by_cases he : l.isEmpty = true
  · rw [List.isEmpty_iff] at he
    subst he
    simp [sortByDate, txn_amount_sum_nil]
  · rw [Bool.not_eq_true] at he
    rw [sortByDate_isEmpty, he]
    simp only [Bool.false_eq_true, if_false]
    exact sortByDate_amount_sum l

/-- C6 amended: the bucketed-side transfer check inspects, for every
bucketed-at-some-point account, all its transfer legs after the cash
flow start (bucketed dates only for semi-bucketed accounts) — with no
split filter of any kind — splits them by whether the sibling resolves
into a bucketed account, and sums and reports the bucketed-sibling legs
carrying a bucket together with the unbucketed-sibling legs carrying
none. -/
theorem check_bucketed_transfers_characterization (info : BasicInfo) :
    (∀ a, info.xfers_to_bucketed_offenders a =
        sortByDate (info.transactions.filter (info.xfer_to_bucketed_offender a))) ∧
    (∀ a, info.xfers_to_unbucketed_offenders a =
        sortByDate (info.transactions.filter (info.xfer_to_unbucketed_offender a))) ∧
      info.check_bucketed_account_transfers =
        ((info.bucketed_at_some_point).map fun a =>
          txn_amount_sum (info.transactions.filter (info.xfer_to_bucketed_offender a)) +
            txn_amount_sum
              (info.transactions.filter (info.xfer_to_unbucketed_offender a))).sum := by
  refine ⟨xfers_to_bucketed_offenders_eq info, xfers_to_unbucketed_offenders_eq info, ?_⟩
  unfold BasicInfo.check_bucketed_account_transfers
  congr 1
  refine List.map_congr_left fun a _ => ?_
  rw [xfers_to_bucketed_offenders_eq info a, xfers_to_unbucketed_offenders_eq info a]
  simp only [sorted_if_sum]

/-- Refutation of C6 as stated: on `infoSplitXfer` the first transfer leg
is a split parent; the check still counts it (returning 10), while the
claimed "non-split transfer legs only" total is 0. -/
theorem check_bucketed_transfers_counterexample :
    infoSplitXfer.check_bucketed_account_transfers = 10 ∧
      claimed_bucketed_transfer_total infoSplitXfer = 0 ∧ (10 : ℚ) ≠ 0 := by
  have hacc : infoSplitXfer.bucketed_at_some_point = [1, 2] := by rfl
  have hx1 : infoSplitXfer.bucketed_account_xfers 1 =
      [⟨1, 10, 1, false, some 3, some 2, none, "Xfer out", "", 10⟩] := by
    norm_num [BasicInfo.bucketed_account_xfers, txns_in_account, txns_between_dates,
      dleq, BasicInfo.sometimes_bucketed_accounts, otruthy, infoSplitXfer]
  have hx2 : infoSplitXfer.bucketed_account_xfers 2 =
      [⟨2, 10, 2, false, none, some 1, none, "Xfer in", "", -10⟩] := by
    norm_num [BasicInfo.bucketed_account_xfers, txns_in_account, txns_between_dates,
      dleq, BasicInfo.sometimes_bucketed_accounts, otruthy, infoSplitXfer]
  have hsib1 : infoSplitXfer.is_txn_xfer_sibling_bucketed
      ⟨1, 10, 1, false, some 3, some 2, none, "Xfer out", "", 10⟩ = true := by rfl
  have hsib2 : infoSplitXfer.is_txn_xfer_sibling_bucketed
      ⟨2, 10, 2, false, none, some 1, none, "Xfer in", "", -10⟩ = true := by rfl
  refine ⟨?_, ?_, by norm_num⟩
  · unfold BasicInfo.check_bucketed_account_transfers
      BasicInfo.xfers_to_bucketed_offenders BasicInfo.xfers_to_unbucketed_offenders
    rw [hacc]
    simp only [List.map_cons, List.map_nil, hx1, hx2, List.filter_cons,
      List.filter_nil, hsib1, hsib2]
    norm_num [otruthy, sortByDate, txn_amount_sum, round2, pyRound, Int.floor_eq_iff]
  · unfold claimed_bucketed_transfer_total
    rw [hacc]
    simp only [List.map_cons, List.map_nil, hx1, hx2, List.filter_cons,
      List.filter_nil, hsib1, hsib2]
    norm_num [BasicInfo.is_txn_split, BasicInfo.splitKeysRaw, otruthy, infoSplitXfer]

/-- C9 amended: the four account-walking checks sort every per-account
offender list by date before reporting; the split check does not (see
the refutation). -/
theorem account_check_reports_sorted (info : BasicInfo) (a : Nat) :
    dateSorted (info.unbucketed_candidate_txns a) ∧
    dateSorted (info.bucketed_candidate_txns a) ∧
    dateSorted (info.xfers_to_bucketed_offenders a) ∧
    dateSorted (info.xfers_to_unbucketed_offenders a) ∧
    dateSorted (info.unbucketed_xfer_offenders a) := by
  unfold BasicInfo.unbucketed_candidate_txns BasicInfo.bucketed_candidate_txns
    BasicInfo.xfers_to_bucketed_offenders BasicInfo.xfers_to_unbucketed_offenders
    BasicInfo.unbucketed_xfer_offenders
  exact ⟨sortByDate_sorted _, sortByDate_sorted _, sortByDate_sorted _,
    sortByDate_sorted _, sortByDate_sorted _⟩

/-- Refutation of C9 as stated: the split check's offender report on
`infoUnsortedSplit` lists the late child (date 20) before the early
child (date 5), so it is not sorted by date. -/
theorem check_splits_report_not_sorted :
    infoUnsortedSplit.check_splits_report =
      [⟨1, 10, 1, false, none, none, none, "Parent", "", 100⟩,
       ⟨2, 20, 1, false, some 1, none, some 1, "Late child", "", 60⟩,
       ⟨3, 5, 1, false, some 2, none, some 1, "Early child", "", 10⟩] ∧
      ¬ dateSorted infoUnsortedSplit.check_splits_report := by
  have hkeys : infoUnsortedSplit.splitKeys = [1] := by rfl
  have hfind : infoUnsortedSplit.findTxn 1 =
      some ⟨1, 10, 1, false, none, none, none, "Parent", "", 100⟩ := by rfl
  have hres : infoUnsortedSplit.split_residual
      ⟨1, 10, 1, false, none, none, none, "Parent", "", 100⟩ = 30 := by
    norm_num [BasicInfo.split_residual, BasicInfo.split_children, txn_amount_sum,
      infoUnsortedSplit, round2, pyRound, Int.floor_eq_iff]
  have hreport : infoUnsortedSplit.check_splits_report =
      [⟨1, 10, 1, false, none, none, none, "Parent", "", 100⟩,
       ⟨2, 20, 1, false, some 1, none, some 1, "Late child", "", 60⟩,
       ⟨3, 5, 1, false, some 2, none, some 1, "Early child", "", 10⟩] := by
    unfold BasicInfo.check_splits_report
    rw [hkeys]
    simp only [List.flatMap_cons, List.flatMap_nil, hfind, hres]
    rw [if_pos (by norm_num)]
    rfl
  refine ⟨hreport, ?_⟩
  rw [hreport]
  intro hsorted
  unfold dateSorted at hsorted
  rcases List.sorted_cons.mp hsorted with ⟨-, htail⟩
  rcases List.sorted_cons.mp htail with ⟨hle, -⟩
  have h5 := hle ⟨3, 5, 1, false, some 2, none, some 1, "Early child", "", 10⟩ (by simp)
  simp at h5
